import Mathlib

/-!
Verification development for the `lua-kit` Lua 5.3 bytecode codec.

The definitions below are a shallow embedding of the three source files:
`src/bytecode.rs` (instruction encoder), `src/lib.rs` (data model and binary
writer) and `src/read.rs` (binary reader).  Machine integers are modelled as
`Nat`/`Int` with explicit `% 2^w` where the source relies on wrapping casts;
byte streams are `List Nat` of values `< 256`; Rust `String` payloads are
modelled by their UTF-8 byte lists; `f64` values are modelled by their
IEEE-754 bit patterns (the codec only moves them bit-exactly, and the single
float comparison in the header is against the constant `370.5`, which no
other bit pattern compares float-equal to).
-/

namespace LuaKit

/-! ### Instruction encoder, from `src/bytecode.rs` -/

/-- `const BITRK: u32 = 1 << 8;` -/
def BITRK : Nat := 1 <<< 8

/-- Bitwise complement `!BITRK` on `u32`. -/
def NOT_BITRK : Nat := 0xffffffff ^^^ BITRK

/-- The `RK` slot: register (`R`) or constant (`K`); the `u8` payload is a
`Nat` (theorems carry the `< 256` range where needed). -/
inductive RK
  | R (r : Nat)
  | K (k : Nat)
deriving DecidableEq

/-- `RK::decode`: `if value & BITRK != 0 { K((value & !BITRK) as u8) } else { R(value as u8) }`. -/
def RK.decode (value : Nat) : RK :=
  if value &&& BITRK ≠ 0 then .K ((value &&& NOT_BITRK) % 256) else .R (value % 256)

/-- `RK::encode`: `R(r) => r as u32, K(k) => (k as u32) | BITRK`. -/
def RK.encode : RK → Nat
  | .R r => r
  | .K k => k ||| BITRK

/-- The Lua opcode enumeration (`#[repr(u8)] pub enum Opcode`), 47 tags. -/
inductive Opcode
  | Move | LoadK | LoadKX | LoadBool | LoadNil
  | GetUpval | GetTabUp | GetTable
  | SetTabUp | SetUpval | SetTable
  | NewTable
  | Self_
  | Add | Sub | Mul | Mod | Pow | Div | IntDiv
  | BinAnd | BinOr | BinXor | ShLeft | ShRight
  | UnMinus | BinNot | Not | Len
  | Concat
  | Jump | Eq | Less | LessEq
  | Test | TestSet
  | Call | TailCall | Return
  | ForLoop | ForPrep | TForCall | TForLoop | SetList
  | Closure | VarArg | ExtraArg
deriving DecidableEq

/-- The discriminant of each opcode (`op as u32`); `repr(u8)` assigns 0,1,2,… -/
def Opcode.toNat : Opcode → Nat
  | .Move => 0 | .LoadK => 1 | .LoadKX => 2 | .LoadBool => 3 | .LoadNil => 4
  | .GetUpval => 5 | .GetTabUp => 6 | .GetTable => 7
  | .SetTabUp => 8 | .SetUpval => 9 | .SetTable => 10
  | .NewTable => 11
  | .Self_ => 12
  | .Add => 13 | .Sub => 14 | .Mul => 15 | .Mod => 16 | .Pow => 17 | .Div => 18
  | .IntDiv => 19
  | .BinAnd => 20 | .BinOr => 21 | .BinXor => 22 | .ShLeft => 23 | .ShRight => 24
  | .UnMinus => 25 | .BinNot => 26 | .Not => 27 | .Len => 28
  | .Concat => 29
  | .Jump => 30 | .Eq => 31 | .Less => 32 | .LessEq => 33
  | .Test => 34 | .TestSet => 35
  | .Call => 36 | .TailCall => 37 | .Return => 38
  | .ForLoop => 39 | .ForPrep => 40 | .TForCall => 41 | .TForLoop => 42
  | .SetList => 43
  | .Closure => 44 | .VarArg => 45 | .ExtraArg => 46

/-- `encode`: `(op as u32) | ((a as u32) << 6) | ((c & 0x1ff) << 14) | ((b & 0x1ff) << 23)`. -/
def encode (op : Opcode) (a b c : Nat) : Nat :=
  op.toNat ||| (a <<< 6) ||| ((c &&& 0x1ff) <<< 14) ||| ((b &&& 0x1ff) <<< 23)

/-- `encode_bx`: `(op as u32) | ((a as u32) << 6) | ((bx & 0x3ffff) << 14)`. -/
def encode_bx (op : Opcode) (a bx : Nat) : Nat :=
  op.toNat ||| (a <<< 6) ||| ((bx &&& 0x3ffff) <<< 14)

/-- `encode_sbx`: `(op as u32) | ((a as u32) << 6) | ((((sbx + 0x20000) as u32) & 0x3ffff) << 14)`.
The `i32` addition plus `as u32` cast is wrapping arithmetic mod `2^32`. -/
def encode_sbx (op : Opcode) (a : Nat) (sbx : Int) : Nat :=
  op.toNat ||| (a <<< 6) ||| (((((sbx + 0x20000) % (2 ^ 32 : Int)).toNat) &&& 0x3ffff) <<< 14)

/-- `encode_ax`: `(op as u32) | ((ax & 0x3ffffff) << 6)`. -/
def encode_ax (op : Opcode) (ax : Nat) : Nat :=
  op.toNat ||| ((ax &&& 0x3ffffff) <<< 6)

/-! ### Arithmetic helper lemmas for the bit-packing proofs -/

theorem opcode_toNat_lt (op : Opcode) : op.toNat < 64 := by
  cases op <;> decide

theorem lor_shl {x y n : Nat} (h : x < 2 ^ n) : x ||| (y <<< n) = x + y * 2 ^ n := by
  rw [Nat.shiftLeft_eq, Nat.lor_comm, Nat.mul_comm y (2 ^ n), ← Nat.mul_add_lt_is_or h y]
  ring

theorem and_511 (x : Nat) : x &&& 511 = x % 512 := by
  have h := Nat.and_pow_two_sub_one_eq_mod x 9
  norm_num at h
  exact h

theorem and_262143 (x : Nat) : x &&& 262143 = x % 262144 := by
  have h := Nat.and_pow_two_sub_one_eq_mod x 18
  norm_num at h
  exact h

theorem and_67108863 (x : Nat) : x &&& 67108863 = x % 67108864 := by
  have h := Nat.and_pow_two_sub_one_eq_mod x 26
  norm_num at h
  exact h

theorem encode_eq (op : Opcode) (a b c : Nat) (ha : a < 256) :
    encode op a b c = op.toNat + a * 64 + (c % 512) * 16384 + (b % 512) * 8388608 := by
  have ho := opcode_toNat_lt op
  unfold encode
  rw [show (0x1ff : Nat) = 511 from rfl, and_511, and_511,
    lor_shl (show op.toNat < 2 ^ 6 by norm_num; omega),
    lor_shl (show op.toNat + a * 2 ^ 6 < 2 ^ 14 by norm_num; omega),
    lor_shl (show op.toNat + a * 2 ^ 6 + c % 512 * 2 ^ 14 < 2 ^ 23 by
      have hc : c % 512 < 512 := Nat.mod_lt _ (by norm_num)
      norm_num; omega)]
  norm_num

theorem encode_bx_eq (op : Opcode) (a bx : Nat) (ha : a < 256) :
    encode_bx op a bx = op.toNat + a * 64 + (bx % 262144) * 16384 := by
  have ho := opcode_toNat_lt op
  unfold encode_bx
  rw [show (0x3ffff : Nat) = 262143 from rfl, and_262143,
    lor_shl (show op.toNat < 2 ^ 6 by norm_num; omega),
    lor_shl (show op.toNat + a * 2 ^ 6 < 2 ^ 14 by norm_num; omega)]
  norm_num

theorem encode_sbx_eq (op : Opcode) (a : Nat) (v : Int) (ha : a < 256) :
    encode_sbx op a v =
      op.toNat + a * 64 + ((((v + 131072) % 4294967296).toNat % 262144) * 16384) := by
  have ho := opcode_toNat_lt op
  unfold encode_sbx
  rw [show ((2 : Int) ^ 32) = 4294967296 from by norm_num,
    show (0x3ffff : Nat) = 262143 from rfl, and_262143,
    lor_shl (show op.toNat < 2 ^ 6 by norm_num; omega),
    lor_shl (show op.toNat + a * 2 ^ 6 < 2 ^ 14 by norm_num; omega)]
  norm_num

theorem encode_ax_eq (op : Opcode) (ax : Nat) :
    encode_ax op ax = op.toNat + (ax % 67108864) * 64 := by
  have ho := opcode_toNat_lt op
  unfold encode_ax
  rw [show (0x3ffffff : Nat) = 67108863 from rfl, and_67108863,
    lor_shl (show op.toNat < 2 ^ 6 by norm_num; omega)]
  norm_num

/-! ### Claims about the instruction encoder -/

set_option maxRecDepth 8192 in
/-- C4: RK encode/decode is a bijection over its domain: for every index in
0–255, `decode (encode (R r)) = R r` and `decode (encode (K k)) = K k`; the
encoding sets marker bit `0x100` exactly for the constant variant and keeps
the index in the low 8 bits. -/
theorem rk_encode_decode_bijection :
    ∀ n < 256,
      RK.decode (RK.encode (RK.R n)) = RK.R n ∧
      RK.decode (RK.encode (RK.K n)) = RK.K n ∧
      RK.encode (RK.K n) &&& 0x100 = 0x100 ∧
      RK.encode (RK.R n) &&& 0x100 = 0 ∧
      RK.encode (RK.R n) % 256 = n ∧
      RK.encode (RK.K n) % 256 = n := by
  decide

theorem rk_encode_decode_bijection_witness :
    RK.decode (RK.encode (RK.R 7)) = RK.R 7 ∧
    RK.decode (RK.encode (RK.K 7)) = RK.K 7 ∧
    RK.encode (RK.K 7) &&& 0x100 = 0x100 ∧
    RK.encode (RK.R 7) &&& 0x100 = 0 ∧
    RK.encode (RK.R 7) % 256 = 7 ∧
    RK.encode (RK.K 7) % 256 = 7 :=
  rk_encode_decode_bijection 7 (by decide)

/-- C5: for every opcode, every `a` in 0–255 and every `v` in
`[-0x20000, 0x1ffff]`, extracting bits 14–31 of `encode_sbx op a v` and
subtracting the bias `0x20000` yields `v` again. -/
theorem sbx_bias_roundtrip (op : Opcode) (a : Nat) (v : Int)
    (ha : a < 256) (h1 : -0x20000 ≤ v) (h2 : v ≤ 0x1ffff) :
    (((encode_sbx op a v >>> 14) &&& 0x3ffff : Nat) : Int) - 0x20000 = v := by
  have ho := opcode_toNat_lt op
  rw [encode_sbx_eq op a v ha, Nat.shiftRight_eq_div_pow,
    show (0x3ffff : Nat) = 262143 from rfl, and_262143,
    show (2 : Nat) ^ 14 = 16384 from by norm_num]
  omega

theorem sbx_bias_roundtrip_witness :
    (((encode_sbx .Jump 3 (-5) >>> 14) &&& 0x3ffff : Nat) : Int) - 0x20000 = -5 :=
  sbx_bias_roundtrip .Jump 3 (-5) (by decide) (by decide) (by decide)

/-- C6: the instruction bit layout is, LSB to MSB: bits 0–5 the opcode,
bits 6–13 operand A; for the ABC shape bits 14–22 hold C and bits 23–31
hold B; for the ABx/AsBx shape bits 14–31 hold the combined 18-bit field;
for the Ax shape bits 6–31 hold the combined 26-bit field.  Each encoder
places its operands at exactly these offsets (fields read back by
division/modulus at those offsets). -/
theorem instruction_bit_layout (op : Opcode) (a b c bx ax : Nat) (v : Int)
    (ha : a < 256) :
    encode op a b c % 64 = op.toNat ∧
    encode op a b c / 64 % 256 = a ∧
    encode op a b c / 16384 % 512 = c % 512 ∧
    encode op a b c / 8388608 % 512 = b % 512 ∧
    encode op a b c < 4294967296 ∧
    encode_bx op a bx % 64 = op.toNat ∧
    encode_bx op a bx / 64 % 256 = a ∧
    encode_bx op a bx / 16384 % 262144 = bx % 262144 ∧
    encode_sbx op a v % 64 = op.toNat ∧
    encode_sbx op a v / 64 % 256 = a ∧
    encode_sbx op a v / 16384 % 262144 = ((v + 131072) % 4294967296).toNat % 262144 ∧
    encode_ax op ax % 64 = op.toNat ∧
    encode_ax op ax / 64 % 67108864 = ax % 67108864 := by
  have ho := opcode_toNat_lt op
  rw [encode_eq op a b c ha, encode_bx_eq op a bx ha, encode_sbx_eq op a v ha,
    encode_ax_eq op ax]
  refine ⟨by omega, by omega, by omega, by omega, by omega, by omega, by omega,
    by omega, by omega, by omega, by omega, by omega, by omega⟩

theorem instruction_bit_layout_witness :
    encode .Move 1 2 3 % 64 = Opcode.toNat .Move ∧
    encode .Move 1 2 3 / 64 % 256 = 1 ∧
    encode .Move 1 2 3 / 16384 % 512 = 3 % 512 ∧
    encode .Move 1 2 3 / 8388608 % 512 = 2 % 512 ∧
    encode .Move 1 2 3 < 4294967296 ∧
    encode_bx .Move 1 4 % 64 = Opcode.toNat .Move ∧
    encode_bx .Move 1 4 / 64 % 256 = 1 ∧
    encode_bx .Move 1 4 / 16384 % 262144 = 4 % 262144 ∧
    encode_sbx .Move 1 0 % 64 = Opcode.toNat .Move ∧
    encode_sbx .Move 1 0 / 64 % 256 = 1 ∧
    encode_sbx .Move 1 0 / 16384 % 262144 =
      (((0 : Int) + 131072) % 4294967296).toNat % 262144 ∧
    encode_ax .Move 5 % 64 = Opcode.toNat .Move ∧
    encode_ax .Move 5 / 64 % 67108864 = 5 % 67108864 :=
  instruction_bit_layout .Move 1 2 3 4 5 0 (by decide)

/-- C9: the four instruction encoders are total pure functions with no
failure mode: every input (any `Int` at all for the sBx argument, a
superset of `i32`) yields a 32-bit word, and out-of-range operand values
are silently truncated by fixed-width masking (adding the field's modulus
to an operand leaves the encoding unchanged) rather than reported. -/
theorem encoders_total_and_masking (op : Opcode) (a b c bx ax : Nat) (sbx : Int)
    (ha : a < 256) :
    encode op a b c < 4294967296 ∧
    encode_bx op a bx < 4294967296 ∧
    encode_sbx op a sbx < 4294967296 ∧
    encode_ax op ax < 4294967296 ∧
    encode op a (b + 512) c = encode op a b c ∧
    encode op a b (c + 512) = encode op a b c ∧
    encode_bx op a (bx + 262144) = encode_bx op a bx ∧
    encode_sbx op a (sbx + 262144) = encode_sbx op a sbx ∧
    encode_ax op (ax + 67108864) = encode_ax op ax := by
  have ho := opcode_toNat_lt op
  simp only [encode_eq op a b c ha, encode_eq op a (b + 512) c ha,
    encode_eq op a b (c + 512) ha, encode_bx_eq op a bx ha,
    encode_bx_eq op a (bx + 262144) ha, encode_sbx_eq op a sbx ha,
    encode_sbx_eq op a (sbx + 262144) ha, encode_ax_eq op ax,
    encode_ax_eq op (ax + 67108864)]
  refine ⟨by omega, by omega, by omega, by omega, by omega, by omega, by omega,
    by omega, by omega⟩

theorem encoders_total_and_masking_witness :
    encode .Move 1 2 3 < 4294967296 ∧
    encode_bx .Move 1 4 < 4294967296 ∧
    encode_sbx .Move 1 9 < 4294967296 ∧
    encode_ax .Move 5 < 4294967296 ∧
    encode .Move 1 (2 + 512) 3 = encode .Move 1 2 3 ∧
    encode .Move 1 2 (3 + 512) = encode .Move 1 2 3 ∧
    encode_bx .Move 1 (4 + 262144) = encode_bx .Move 1 4 ∧
    encode_sbx .Move 1 (9 + 262144) = encode_sbx .Move 1 9 ∧
    encode_ax .Move (5 + 67108864) = encode_ax .Move 5 :=
  encoders_total_and_masking .Move 1 2 3 4 5 9 (by decide)

/-! ### Data model and binary writer, from `src/lib.rs` -/

/-- `SIGNATURE`: the bytes of `b"\x1bLua"`. -/
abbrev SIGNATURE : List Nat := [0x1b, 0x4c, 0x75, 0x61]

/-- `VERSION: u8 = 0x53`. -/
abbrev VERSION : Nat := 0x53

/-- `FORMAT: u8 = 0`. -/
abbrev FORMAT : Nat := 0

/-- `DATA`: the bytes of `b"\x19\x93\r\n\x1a\n"`. -/
abbrev DATA : List Nat := [0x19, 0x93, 0x0d, 0x0a, 0x1a, 0x0a]

/-- `TEST_INT: Integer = 0x5678` (an `i64`). -/
abbrev TEST_INT : Int := 0x5678

/-- `TEST_NUMBER: Number = 370.5`, modelled by its IEEE-754 `f64` bit
pattern.  370.5 is exactly representable and no other `f64` bit pattern
compares float-equal to it, so bit equality below coincides with the
source's float equality. -/
abbrev TEST_NUMBER_BITS : Nat := 0x4077280000000000

/-- `size_of::<Int>()` where `Int = i32`. -/
abbrev SIZEOF_INT : Nat := 4
/-- `size_of::<Size>()` where `Size = u32`. -/
abbrev SIZEOF_SIZE : Nat := 4
/-- `size_of::<Instruction>()` where `Instruction = u32`. -/
abbrev SIZEOF_INSTRUCTION : Nat := 4
/-- `size_of::<Integer>()` where `Integer = i64`. -/
abbrev SIZEOF_INTEGER : Nat := 8
/-- `size_of::<Number>()` where `Number = f64`. -/
abbrev SIZEOF_NUMBER : Nat := 8

/-- `enum Constant`: an entry in the constant pool.  Strings are carried as
their UTF-8 byte lists; floats as their `f64` bit patterns. -/
inductive Constant
  | Nil
  | Boolean (b : Bool)
  | Float (bits : Nat)
  | Int (n : Int)
  | ShortString (s : List Nat)
  | LongString (s : List Nat)
deriving DecidableEq

/-- `enum Upvalue`: an entry in the upvalue table (`u8` index payload). -/
inductive Upvalue
  | Outer (idx : Nat)
  | Stack (idx : Nat)
deriving DecidableEq

/-- `struct LocalVar`: name plus visibility range (`i32` pcs). -/
structure LocalVar where
  name : List Nat
  start_pc : Int
  end_pc : Int
deriving DecidableEq

/-- `struct Debug`: optional debugging information. -/
structure Debug where
  lineinfo : List Int
  localvars : List LocalVar
  upvalues : List (List Nat)
deriving DecidableEq

/-- `struct Function`: a Lua function prototype. -/
structure Function where
  source : List Nat
  line_start : Int
  line_end : Int
  num_params : Nat
  is_vararg : Bool
  max_stack_size : Nat
  code : List Nat
  constants : List Constant
  upvalues : List Upvalue
  protos : List Function
  debug : Debug

/-- Little-endian `u32` byte encoding (`NativeEndian` on the x86-64 host). -/
def u32le (n : Nat) : List Nat :=
  [n % 256, n / 256 % 256, n / 65536 % 256, n / 16777216 % 256]

/-- Little-endian `u64` byte encoding. -/
def u64le (n : Nat) : List Nat :=
  [n % 256, n / 256 % 256, n / 65536 % 256, n / 16777216 % 256,
   n / 4294967296 % 256, n / 1099511627776 % 256,
   n / 281474976710656 % 256, n / 72057594037927936 % 256]

/-- Little-endian `i32` (two's complement). -/
def i32le (n : Int) : List Nat := u32le ((n % (2 ^ 32 : Int)).toNat)

/-- Little-endian `i64` (two's complement). -/
def i64le (n : Int) : List Nat := u64le ((n % (2 ^ 64 : Int)).toNat)

/-- `Writer::write_string`: empty string is the single byte 0; a string of
byte length `< 0xff` is one length byte `len+1` then the raw bytes; a
string of byte length `>= 0xff` is the marker byte `0xff`, a `u32` raw
length, then the raw bytes. -/
def write_string (s : List Nat) : List Nat :=
  if s.length = 0 then [0]
  else if 0xff ≤ s.length then (0xff :: u32le s.length) ++ s
  else (s.length + 1) :: s

/-- The constant-pool entry emission in `Writer::write_function`. -/
def write_constant : Constant → List Nat
  | .Nil => [0x00]
  | .Boolean b => [0x01, if b then 1 else 0]
  | .Float bits => 0x03 :: u64le bits
  | .Int n => 0x13 :: i64le n
  | .ShortString s => 0x04 :: write_string s
  | .LongString s => 0x14 :: write_string s

/-- The upvalue-table entry emission in `Writer::write_function`. -/
def write_upvalue : Upvalue → List Nat
  | .Outer idx => [0, idx]
  | .Stack idx => [1, idx]

/-- The local-variable debug entry emission in `Writer::write_function`. -/
def write_localvar (v : LocalVar) : List Nat :=
  write_string v.name ++ i32le v.start_pc ++ i32le v.end_pc

mutual

/-- `Writer::write_function`: the fixed field-by-field prototype emission,
recursing into child prototypes. -/
def write_function : Function → List Nat
  | ⟨source, line_start, line_end, num_params, is_vararg, max_stack_size,
     code, constants, upvalues, protos, debug⟩ =>
    write_string source ++ i32le line_start ++ i32le line_end ++
    [num_params, if is_vararg then 1 else 0, max_stack_size] ++
    u32le code.length ++ (code.map u32le).flatten ++
    u32le constants.length ++ (constants.map write_constant).flatten ++
    u32le upvalues.length ++ (upvalues.map write_upvalue).flatten ++
    u32le protos.length ++ write_protos protos ++
    u32le debug.lineinfo.length ++ (debug.lineinfo.map i32le).flatten ++
    u32le debug.localvars.length ++ (debug.localvars.map write_localvar).flatten ++
    u32le debug.upvalues.length ++ (debug.upvalues.map write_string).flatten

/-- The `for proto in &function.protos` loop of `write_function`. -/
def write_protos : List Function → List Nat
  | [] => []
  | f :: fs => write_function f ++ write_protos fs

end

/-- `Writer::write_header`: the fixed 33-byte header. -/
def headerBytes : List Nat :=
  SIGNATURE ++ [VERSION, FORMAT] ++ DATA ++
  [SIZEOF_INT, SIZEOF_SIZE, SIZEOF_INSTRUCTION, SIZEOF_INTEGER, SIZEOF_NUMBER] ++
  i64le TEST_INT ++ u64le TEST_NUMBER_BITS

/-- `write_file`: header, a one-byte outer upvalue count
(`function.upvalues.len() as u8`), then the root prototype. -/
def write_file (f : Function) : List Nat :=
  headerBytes ++ [f.upvalues.length % 256] ++ write_function f

/-! ### Binary reader, from `src/read.rs`

The reader is modelled as state passing over a `List Nat` byte stream
(`io::Read` with every requested byte immediately available).  Errors are a
structured type: `eof` models the reader's "unexpected EOF" /
`UnexpectedEof` failures, `checkFailed` models the `check!` macro's
`invalid <field>, expected X but got Y` error (carrying the field note and
the expected/got values as byte lists), `unknownConstantTag` models the
`unknown constant type` error, and `notUtf8` the `not utf8` error. -/

/-- The reader's error type. -/
inductive Err
  | eof
  | checkFailed (note : String) (expected got : List Nat)
  | unknownConstantTag (t : Nat)
  | notUtf8
deriving DecidableEq

/-- A parser over a byte-list source: the value read plus the rest. -/
abbrev P (α : Type) := List Nat → Except Err (α × List Nat)

@[simp] theorem ok_bind {ε α β : Type} (a : α) (f : α → Except ε β) :
    (Except.ok a >>= f) = f a := rfl

@[simp] theorem error_bind {ε α β : Type} (e : ε) (f : α → Except ε β) :
    (Except.error e >>= f : Except ε β) = Except.error e := rfl

@[simp] theorem pure_bind_except {ε α β : Type} (a : α) (f : α → Except ε β) :
    ((pure a : Except ε α) >>= f) = f a := rfl

/-- `Reader::read_all` on the byte-list source: read exactly `n` bytes or
fail with the unexpected-EOF error. -/
def take_bytes : Nat → P (List Nat)
  | 0 => fun s => .ok ([], s)
  | n + 1 => fun s =>
    match s with
    | [] => .error .eof
    | b :: rest =>
      match take_bytes n rest with
      | .error e => .error e
      | .ok (buf, s) => .ok (b :: buf, s)

/-- `read_u8`. -/
def read_u8 : P Nat := fun s =>
  match s with
  | [] => .error .eof
  | b :: rest => .ok (b, rest)

/-- `read_u32::<NativeEndian>` (little-endian on the x86-64 host). -/
def read_u32 : P Nat := fun s =>
  match s with
  | b0 :: b1 :: b2 :: b3 :: rest =>
    .ok (b0 + b1 * 256 + b2 * 65536 + b3 * 16777216, rest)
  | _ => .error .eof

/-- `read_u64`-shaped primitive used for `f64` bit patterns. -/
def read_u64 : P Nat := fun s =>
  match s with
  | b0 :: b1 :: b2 :: b3 :: b4 :: b5 :: b6 :: b7 :: rest =>
    .ok (b0 + b1 * 256 + b2 * 65536 + b3 * 16777216 + b4 * 4294967296 +
      b5 * 1099511627776 + b6 * 281474976710656 + b7 * 72057594037927936, rest)
  | _ => .error .eof

/-- Two's-complement reinterpretation of a `u32` pattern as `i32`. -/
def toSigned32 (n : Nat) : Int :=
  if n < 2147483648 then (n : Int) else (n : Int) - 4294967296

/-- Two's-complement reinterpretation of a `u64` pattern as `i64`. -/
def toSigned64 (n : Nat) : Int :=
  if n < 9223372036854775808 then (n : Int) else (n : Int) - 18446744073709551616

/-- `read_i32::<NativeEndian>`. -/
def read_i32 : P Int := fun s =>
  match read_u32 s with
  | .error e => .error e
  | .ok (n, rest) => .ok (toSigned32 n, rest)

/-- `read_i64::<NativeEndian>`. -/
def read_i64 : P Int := fun s =>
  match read_u64 s with
  | .error e => .error e
  | .ok (n, rest) => .ok (toSigned64 n, rest)

/-- A UTF-8 continuation byte (`0x80..=0xbf`). -/
def utf8Cont (b : Nat) : Bool := decide (0x80 ≤ b) && decide (b < 0xc0)

/-- Validity of a byte list as UTF-8, mirroring `String::from_utf8`'s
acceptance (shortest forms only, no surrogates, max `U+10FFFF`). -/
def isValidUtf8 : List Nat → Bool
  | [] => true
  | b :: rest =>
    if b < 0x80 then isValidUtf8 rest
    else if 0xc2 ≤ b ∧ b ≤ 0xdf then
      match rest with
      | c1 :: r => utf8Cont c1 && isValidUtf8 r
      | [] => false
    else if b = 0xe0 then
      match rest with
      | c1 :: c2 :: r =>
        (decide (0xa0 ≤ c1) && decide (c1 < 0xc0)) && utf8Cont c2 && isValidUtf8 r
      | _ => false
    else if (0xe1 ≤ b ∧ b ≤ 0xec) ∨ b = 0xee ∨ b = 0xef then
      match rest with
      | c1 :: c2 :: r => utf8Cont c1 && utf8Cont c2 && isValidUtf8 r
      | _ => false
    else if b = 0xed then
      match rest with
      | c1 :: c2 :: r =>
        (decide (0x80 ≤ c1) && decide (c1 < 0xa0)) && utf8Cont c2 && isValidUtf8 r
      | _ => false
    else if b = 0xf0 then
      match rest with
      | c1 :: c2 :: c3 :: r =>
        (decide (0x90 ≤ c1) && decide (c1 < 0xc0)) && utf8Cont c2 && utf8Cont c3 &&
          isValidUtf8 r
      | _ => false
    else if 0xf1 ≤ b ∧ b ≤ 0xf3 then
      match rest with
      | c1 :: c2 :: c3 :: r => utf8Cont c1 && utf8Cont c2 && utf8Cont c3 && isValidUtf8 r
      | _ => false
    else if b = 0xf4 then
      match rest with
      | c1 :: c2 :: c3 :: r =>
        (decide (0x80 ≤ c1) && decide (c1 < 0x90)) && utf8Cont c2 && utf8Cont c3 &&
          isValidUtf8 r
      | _ => false
    else false

/-- `Reader::read_string`: byte 0 is the empty string; a first byte
`< 0xff` is the length plus one; first byte `0xff` means a raw `u32`
length follows; then `length - 1` raw bytes are read and validated as
UTF-8.  The `- 1` is a `usize` subtraction, which wraps when the `u32`
length is 0 (release-mode semantics of the source). -/
def read_string : P (List Nat) := fun s => do
  let (first, s) ← read_u8 s
  if first = 0 then
    .ok ([], s)
  else do
    let (lenRaw, s) ← if first < 0xff then pure (first, s) else read_u32 s
    let len := if lenRaw = 0 then 18446744073709551615 else lenRaw - 1
    let (buf, s) ← take_bytes len s
    if isValidUtf8 buf then .ok (buf, s) else .error .notUtf8

/-- The element-count recursion inside `read_vec`. -/
def read_count {α : Type} (f : P α) : Nat → P (List α)
  | 0 => fun s => .ok ([], s)
  | n + 1 => fun s => do
    let (x, s) ← f s
    let (xs, s) ← read_count f n s
    .ok (x :: xs, s)

/-- `Reader::read_vec`: a `u32` count then that many elements. -/
def read_vec {α : Type} (f : P α) : P (List α) := fun s => do
  let (len, s) ← read_u32 s
  read_count f len s

/-- The constant-pool entry decoding in `read_function` (the `u8` tag
dispatch; an unknown tag is the `unknown constant type` error). -/
def read_constant : P Constant := fun s => do
  let (t, s) ← read_u8 s
  if t = 0x00 then .ok (.Nil, s)
  else if t = 0x01 then do
    let (b, s) ← read_u8 s
    .ok (.Boolean (b != 0), s)
  else if t = 0x03 then do
    let (bits, s) ← read_u64 s
    .ok (.Float bits, s)
  else if t = 0x13 then do
    let (n, s) ← read_i64 s
    .ok (.Int n, s)
  else if t = 0x04 then do
    let (str, s) ← read_string s
    .ok (.ShortString str, s)
  else if t = 0x14 then do
    let (str, s) ← read_string s
    .ok (.LongString str, s)
  else .error (.unknownConstantTag t)

/-- The upvalue-table entry decoding in `read_function`: tag byte 0 is
`Outer`, anything else is `Stack`. -/
def read_upvalue : P Upvalue := fun s => do
  let (stack, s) ← read_u8 s
  let (idx, s) ← read_u8 s
  .ok (if stack = 0 then .Outer idx else .Stack idx, s)

/-- The local-variable debug entry decoding in `read_function`. -/
def read_localvar : P LocalVar := fun s => do
  let (name, s) ← read_string s
  let (sp, s) ← read_i32 s
  let (ep, s) ← read_i32 s
  .ok (⟨name, sp, ep⟩, s)

/-- `Reader::read_function`: the field-by-field prototype decoding.  The
source recurses unboundedly; the embedding passes explicit fuel, and
`read_file` supplies more fuel than any input byte stream can exhaust
(each recursion step consumes at least one byte before descending). -/
def read_function : Nat → P Function
  | 0 => fun _ => .error .eof
  | fuel + 1 => fun s => do
    let (source, s) ← read_string s
    let (line_start, s) ← read_i32 s
    let (line_end, s) ← read_i32 s
    let (num_params, s) ← read_u8 s
    let (vararg, s) ← read_u8 s
    let (max_stack_size, s) ← read_u8 s
    let (code, s) ← read_vec read_u32 s
    let (constants, s) ← read_vec read_constant s
    let (upvalues, s) ← read_vec read_upvalue s
    let (protos, s) ← read_vec (read_function fuel) s
    let (lineinfo, s) ← read_vec read_i32 s
    let (localvars, s) ← read_vec read_localvar s
    let (debug_upvalues, s) ← read_vec read_string s
    .ok (⟨source, line_start, line_end, num_params, vararg != 0, max_stack_size,
      code, constants, upvalues, protos, ⟨lineinfo, localvars, debug_upvalues⟩⟩, s)

/-- `Reader::read_header`: strict equality checks (the `check!` macro)
against every header constant.  The test-number comparison is the `f64`
equality `read_f64 == 370.5`, which holds for exactly one bit pattern. -/
def read_header : P Unit := fun s => do
  let (sig, s) ← take_bytes 4 s
  if sig ≠ SIGNATURE then .error (.checkFailed "signature" SIGNATURE sig) else do
  let (ver, s) ← read_u8 s
  if ver ≠ VERSION then .error (.checkFailed "version" [VERSION] [ver]) else do
  let (fmt, s) ← read_u8 s
  if fmt ≠ FORMAT then .error (.checkFailed "format" [FORMAT] [fmt]) else do
  let (probe, s) ← take_bytes 6 s
  if probe ≠ DATA then .error (.checkFailed "test data" DATA probe) else do
  let (szInt, s) ← read_u8 s
  if szInt ≠ SIZEOF_INT then
    .error (.checkFailed "sizeof(int)" [SIZEOF_INT] [szInt]) else do
  let (szSize, s) ← read_u8 s
  if szSize ≠ SIZEOF_SIZE then
    .error (.checkFailed "sizeof(size_t)" [SIZEOF_SIZE] [szSize]) else do
  let (szIns, s) ← read_u8 s
  if szIns ≠ SIZEOF_INSTRUCTION then
    .error (.checkFailed "sizeof(Instruction)" [SIZEOF_INSTRUCTION] [szIns]) else do
  let (szInteger, s) ← read_u8 s
  if szInteger ≠ SIZEOF_INTEGER then
    .error (.checkFailed "sizeof(Integer)" [SIZEOF_INTEGER] [szInteger]) else do
  let (szNumber, s) ← read_u8 s
  if szNumber ≠ SIZEOF_NUMBER then
    .error (.checkFailed "sizeof(Number)" [SIZEOF_NUMBER] [szNumber]) else do
  let (ti, s) ← read_i64 s
  if ti ≠ TEST_INT then
    .error (.checkFailed "test integer" (i64le TEST_INT) (i64le ti)) else do
  let (tn, s) ← read_u64 s
  if tn ≠ TEST_NUMBER_BITS then
    .error (.checkFailed "test number" (u64le TEST_NUMBER_BITS) (u64le tn)) else
  .ok ((), s)

/-- `read_file`: header, then the discarded one-byte outer upvalue count,
then the root prototype.  Trailing bytes are left unread, as in the
source.  The fuel `s.length + 1` strictly exceeds the prototype nesting
depth any `s`-byte stream can describe. -/
def read_file (s : List Nat) : Except Err Function := do
  let (_, s) ← read_header s
  let (_, s) ← read_u8 s
  let (f, _) ← read_function (s.length + 1) s
  .ok f

/-- `Reader::read_all` over the abstract `io::Read` source, for the
read-primitive contract: the source is the list of chunks successive
`read` calls return (each call returns at most the number of bytes still
requested; an empty chunk is a zero-length read, i.e. EOF). -/
def read_all : List (List Nat) → Nat → Except Err (List Nat)
  | _, 0 => .ok []
  | [], _ + 1 => .error .eof
  | chunk :: chunks, n + 1 =>
    if chunk.length = 0 then .error .eof
    else
      let got := chunk.take (n + 1)
      match read_all chunks (n + 1 - got.length) with
      | .error e => .error e
      | .ok more => .ok (got ++ more)

/-! ### Claims about the codec -/

/-- A prototype whose source name is a 254-byte string (254 `'a'`s) and
whose other fields are minimal. -/
def protoLongSource : Function :=
  ⟨List.replicate 254 0x61, 0, 0, 0, false, 0, [], [], [], [], ⟨[], [], []⟩⟩

set_option maxRecDepth 10000 in
/-- C1: the write/read round-trip FAILS on the code as written: for a
prototype whose source-name string has byte length 254, `write_string`
emits the single length byte `254 + 1 = 0xff`, which `read_string` takes
for the long-string marker, so `read_file (write_file T)` is an EOF error
rather than `Except.ok T`.  (The claim `read_file (write_file T) = ok T`
for all valid trees is therefore false; the writer's string emission
contradicts the reader, which follows the Lua 5.3 format.) -/
theorem roundtrip_fails_on_long_source :
    read_file (write_file protoLongSource) = .error .eof ∧
    read_file (write_file protoLongSource) ≠ .ok protoLongSource := by
  have h1 : read_file (write_file protoLongSource) = .error .eof := by rfl
  exact ⟨h1, by rw [h1]; exact fun h => Except.noConfusion h⟩

set_option maxRecDepth 10000 in
/-- C2: `read_string` is NOT the exact inverse of `write_string`.  At byte
length 254 the writer's one-byte branch emits the length byte `0xff`,
which the reader interprets as the long-form marker and then consumes four
payload bytes as a `u32` length, failing with EOF here.  At byte length
255 the writer emits the raw `u32` length 255 while the reader subtracts
one from it, so the round-trip returns a truncated 254-byte string and
leaves one payload byte unconsumed. -/
theorem string_roundtrip_fails :
    read_string (write_string (List.replicate 254 0x61)) = .error .eof ∧
    read_string (write_string (List.replicate 255 0x61)) =
      .ok (List.replicate 254 0x61, [0x61]) := by
  exact ⟨by rfl, by rfl⟩

/-- A full chunk whose single upvalue entry carries the unrecognized tag
byte 2 (the writer only ever emits tags 0 and 1). -/
def upvalTag2Input : List Nat :=
  headerBytes ++ [0] ++
  [0] ++ i32le 0 ++ i32le 0 ++ [0, 0, 0] ++
  u32le 0 ++ u32le 0 ++ u32le 1 ++ [2, 5] ++ u32le 0 ++ u32le 0 ++ u32le 0 ++ u32le 0

/-- The prototype `read_file` produces for `upvalTag2Input`. -/
def upvalTag2Fn : Function :=
  ⟨[], 0, 0, 0, false, 0, [], [], [.Stack 5], [], ⟨[], [], []⟩⟩

/-- C3 counterexample: an upvalue-type tag byte outside the two recognized
tags does NOT make `read_file` return an error: the chunk `upvalTag2Input`
carries upvalue tag byte 2, yet `read_file` accepts it (as `Stack 5`). -/
theorem upvalue_tag_two_accepted : read_file upvalTag2Input = .ok upvalTag2Fn := by
  rfl

/-- A valid 33-byte header followed by anything parses cleanly. -/
theorem read_header_ok (t : List Nat) : read_header (headerBytes ++ t) = .ok ((), t) := rfl

set_option maxHeartbeats 1000000 in
/-- `read_function` on a minimal prototype whose single constant entry
carries an unrecognized tag byte fails with the unknown-constant-tag
error, for any fuel. -/
theorem read_function_constTag (fuel : Nat) (t : Nat) (rest : List Nat)
    (h0 : t ≠ 0x00) (h1 : t ≠ 0x01) (h3 : t ≠ 0x03) (h19 : t ≠ 0x13)
    (h4 : t ≠ 0x04) (h20 : t ≠ 0x14) :
    read_function (fuel + 1)
      (0 :: 0 :: 0 :: 0 :: 0 :: 0 :: 0 :: 0 :: 0 :: 0 :: 0 :: 0 :: 0 :: 0 :: 0 ::
        0 :: 1 :: 0 :: 0 :: 0 :: t :: rest) =
    .error (.unknownConstantTag t) := by
  simp [read_function, read_u8, read_string, read_i32, read_u32, read_vec,
    read_count, read_constant, toSigned32, h0, h1, h3, h19, h4, h20]

set_option maxHeartbeats 1000000 in
/-- `read_function` on a minimal prototype whose single upvalue entry
carries any nonzero tag byte succeeds, decoding the entry as `Stack`,
for any fuel. -/
theorem read_function_upvalTag (fuel : Nat) (t idx : Nat) (h0 : t ≠ 0) :
    read_function (fuel + 1)
      (0 :: 0 :: 0 :: 0 :: 0 :: 0 :: 0 :: 0 :: 0 :: 0 :: 0 :: 0 :: 0 :: 0 :: 0 ::
        0 :: 0 :: 0 :: 0 :: 0 :: 1 :: 0 :: 0 :: 0 :: t :: idx ::
        [0, 0, 0, 0, 0, 0, 0, 0, 0, 0, 0, 0, 0, 0, 0, 0]) =
    .ok (⟨[], 0, 0, 0, false, 0, [], [], [.Stack idx], [], ⟨[], [], []⟩⟩, []) := by
  simp [read_function, read_u8, read_string, read_i32, read_u32, read_vec,
    read_count, read_constant, read_upvalue, toSigned32, h0]

/-- C3 (amended): an unrecognized constant-type tag byte (outside
`{0x00, 0x01, 0x03, 0x13, 0x04, 0x14}`) makes `read_file` fail with the
unknown-constant-tag error, but an upvalue-type tag byte is never
rejected: tag 0 decodes to `Outer` and every nonzero tag byte — the
recognized tag 1 or any unknown one — is silently accepted as `Stack`. -/
theorem unknown_tag_handling :
    (∀ t rest, t ≠ 0x00 → t ≠ 0x01 → t ≠ 0x03 → t ≠ 0x13 → t ≠ 0x04 → t ≠ 0x14 →
      read_file (headerBytes ++
        ([0, 0, 0, 0, 0, 0, 0, 0, 0, 0, 0, 0, 0, 0, 0, 0, 0, 1, 0, 0, 0] ++
          t :: rest)) = .error (.unknownConstantTag t)) ∧
    (∀ t idx, t ≠ 0 →
      read_file (headerBytes ++
        ([0, 0, 0, 0, 0, 0, 0, 0, 0, 0, 0, 0, 0, 0, 0, 0, 0, 0, 0, 0, 0,
          1, 0, 0, 0] ++ t :: idx ::
          [0, 0, 0, 0, 0, 0, 0, 0, 0, 0, 0, 0, 0, 0, 0, 0])) =
      .ok ⟨[], 0, 0, 0, false, 0, [], [], [.Stack idx], [], ⟨[], [], []⟩⟩) := by
  constructor
  · intro t rest h0 h1 h3 h19 h4 h20
    unfold read_file
    rw [read_header_ok]
    simp only [ok_bind, List.cons_append, List.nil_append, read_u8]
    rw [read_function_constTag _ t rest h0 h1 h3 h19 h4 h20]
    rfl
  · intro t idx h0
    unfold read_file
    rw [read_header_ok]
    simp only [ok_bind, List.cons_append, List.nil_append, read_u8]
    rw [read_function_upvalTag _ t idx h0]
    rfl

theorem unknown_tag_handling_witness :
    read_file (headerBytes ++
      ([0, 0, 0, 0, 0, 0, 0, 0, 0, 0, 0, 0, 0, 0, 0, 0, 0, 1, 0, 0, 0] ++
        0x42 :: [])) = .error (.unknownConstantTag 0x42) ∧
    read_file (headerBytes ++
      ([0, 0, 0, 0, 0, 0, 0, 0, 0, 0, 0, 0, 0, 0, 0, 0, 0, 0, 0, 0, 0,
        1, 0, 0, 0] ++ 9 :: 5 ::
        [0, 0, 0, 0, 0, 0, 0, 0, 0, 0, 0, 0, 0, 0, 0, 0])) =
    .ok ⟨[], 0, 0, 0, false, 0, [], [], [.Stack 5], [], ⟨[], [], []⟩⟩ :=
  ⟨unknown_tag_handling.1 0x42 [] (by decide) (by decide) (by decide) (by decide)
      (by decide) (by decide),
    unknown_tag_handling.2 9 5 (by decide)⟩

/-- A header failure is a failure of the whole read: `read_file` returns
exactly the header's error and no prototype. -/
theorem read_file_of_read_header_error {s : List Nat} {e : Err}
    (h : read_header s = .error e) : read_file s = .error e := by
  unfold read_file
  rw [h]
  rfl

/-- C7: every header field is checked against its expected constant, and
the first mismatch — corrupted signature, wrong version or format byte,
mismatched probe ("test data") bytes, any mismatched platform-size byte,
or a wrong test integer or test number — makes `read_file` return the
format-mismatch error that names that field and carries the expected and
actual values, producing no prototype. -/
theorem header_rejection :
    (∀ b0 b1 b2 b3 rest, [b0, b1, b2, b3] ≠ SIGNATURE →
      read_file (b0 :: b1 :: b2 :: b3 :: rest) =
        .error (.checkFailed "signature" SIGNATURE [b0, b1, b2, b3])) ∧
    (∀ v rest, v ≠ VERSION →
      read_file (SIGNATURE ++ v :: rest) =
        .error (.checkFailed "version" [VERSION] [v])) ∧
    (∀ fm rest, fm ≠ FORMAT →
      read_file (SIGNATURE ++ VERSION :: fm :: rest) =
        .error (.checkFailed "format" [FORMAT] [fm])) ∧
    (∀ d0 d1 d2 d3 d4 d5 rest, [d0, d1, d2, d3, d4, d5] ≠ DATA →
      read_file (SIGNATURE ++ VERSION :: FORMAT ::
          d0 :: d1 :: d2 :: d3 :: d4 :: d5 :: rest) =
        .error (.checkFailed "test data" DATA [d0, d1, d2, d3, d4, d5])) ∧
    (∀ z rest, z ≠ SIZEOF_INT →
      read_file (SIGNATURE ++ VERSION :: FORMAT :: (DATA ++ z :: rest)) =
        .error (.checkFailed "sizeof(int)" [SIZEOF_INT] [z])) ∧
    (∀ z rest, z ≠ SIZEOF_SIZE →
      read_file (SIGNATURE ++ VERSION :: FORMAT :: (DATA ++ SIZEOF_INT :: z :: rest)) =
        .error (.checkFailed "sizeof(size_t)" [SIZEOF_SIZE] [z])) ∧
    (∀ z rest, z ≠ SIZEOF_INSTRUCTION →
      read_file (SIGNATURE ++ VERSION :: FORMAT ::
          (DATA ++ SIZEOF_INT :: SIZEOF_SIZE :: z :: rest)) =
        .error (.checkFailed "sizeof(Instruction)" [SIZEOF_INSTRUCTION] [z])) ∧
    (∀ z rest, z ≠ SIZEOF_INTEGER →
      read_file (SIGNATURE ++ VERSION :: FORMAT ::
          (DATA ++ SIZEOF_INT :: SIZEOF_SIZE :: SIZEOF_INSTRUCTION :: z :: rest)) =
        .error (.checkFailed "sizeof(Integer)" [SIZEOF_INTEGER] [z])) ∧
    (∀ z rest, z ≠ SIZEOF_NUMBER →
      read_file (SIGNATURE ++ VERSION :: FORMAT ::
          (DATA ++ SIZEOF_INT :: SIZEOF_SIZE :: SIZEOF_INSTRUCTION ::
            SIZEOF_INTEGER :: z :: rest)) =
        .error (.checkFailed "sizeof(Number)" [SIZEOF_NUMBER] [z])) ∧
    (∀ b0 b1 b2 b3 b4 b5 b6 b7 rest,
      toSigned64 (b0 + b1 * 256 + b2 * 65536 + b3 * 16777216 + b4 * 4294967296 +
        b5 * 1099511627776 + b6 * 281474976710656 + b7 * 72057594037927936) ≠ TEST_INT →
      read_file (SIGNATURE ++ VERSION :: FORMAT ::
          (DATA ++ SIZEOF_INT :: SIZEOF_SIZE :: SIZEOF_INSTRUCTION ::
            SIZEOF_INTEGER :: SIZEOF_NUMBER ::
            b0 :: b1 :: b2 :: b3 :: b4 :: b5 :: b6 :: b7 :: rest)) =
        .error (.checkFailed "test integer" (i64le TEST_INT)
          (i64le (toSigned64 (b0 + b1 * 256 + b2 * 65536 + b3 * 16777216 +
            b4 * 4294967296 + b5 * 1099511627776 + b6 * 281474976710656 +
            b7 * 72057594037927936))))) ∧
    (∀ b0 b1 b2 b3 b4 b5 b6 b7 rest,
      b0 + b1 * 256 + b2 * 65536 + b3 * 16777216 + b4 * 4294967296 +
        b5 * 1099511627776 + b6 * 281474976710656 +
        b7 * 72057594037927936 ≠ TEST_NUMBER_BITS →
      read_file (SIGNATURE ++ VERSION :: FORMAT ::
          (DATA ++ SIZEOF_INT :: SIZEOF_SIZE :: SIZEOF_INSTRUCTION ::
            SIZEOF_INTEGER :: SIZEOF_NUMBER ::
            (0x78 :: 0x56 :: 0 :: 0 :: 0 :: 0 :: 0 :: 0 ::
              b0 :: b1 :: b2 :: b3 :: b4 :: b5 :: b6 :: b7 :: rest))) =
        .error (.checkFailed "test number" (u64le TEST_NUMBER_BITS)
          (u64le (b0 + b1 * 256 + b2 * 65536 + b3 * 16777216 + b4 * 4294967296 +
            b5 * 1099511627776 + b6 * 281474976710656 +
            b7 * 72057594037927936)))) := by
  refine ⟨?_, ?_, ?_, ?_, ?_, ?_, ?_, ?_, ?_, ?_, ?_⟩
  · intro b0 b1 b2 b3 rest h
    apply read_file_of_read_header_error
    simp [read_header, take_bytes, h]
  · intro v rest h
    apply read_file_of_read_header_error
    simp [read_header, take_bytes, read_u8, h]
  · intro fm rest h
    apply read_file_of_read_header_error
    simp [read_header, take_bytes, read_u8, h]
  · intro d0 d1 d2 d3 d4 d5 rest h
    apply read_file_of_read_header_error
    simp [read_header, take_bytes, read_u8, h]
  · intro z rest h
    apply read_file_of_read_header_error
    simp [read_header, take_bytes, read_u8, h]
  · intro z rest h
    apply read_file_of_read_header_error
    simp [read_header, take_bytes, read_u8, h]
  · intro z rest h
    apply read_file_of_read_header_error
    simp [read_header, take_bytes, read_u8, h]
  · intro z rest h
    apply read_file_of_read_header_error
    simp [read_header, take_bytes, read_u8, h]
  · intro z rest h
    apply read_file_of_read_header_error
    simp [read_header, take_bytes, read_u8, h]
  · intro b0 b1 b2 b3 b4 b5 b6 b7 rest h
    apply read_file_of_read_header_error
    simp [read_header, take_bytes, read_u8, read_i64, read_u64, h]
  · intro b0 b1 b2 b3 b4 b5 b6 b7 rest h
    apply read_file_of_read_header_error
    simp [read_header, take_bytes, read_u8, read_i64, read_u64, toSigned64, h]

theorem header_rejection_witness :
    read_file (0 :: 0 :: 0 :: 0 :: []) =
      .error (.checkFailed "signature" SIGNATURE [0, 0, 0, 0]) ∧
    read_file (SIGNATURE ++ 0x52 :: []) =
      .error (.checkFailed "version" [VERSION] [0x52]) ∧
    read_file (SIGNATURE ++ VERSION :: 9 :: []) =
      .error (.checkFailed "format" [FORMAT] [9]) ∧
    read_file (SIGNATURE ++ VERSION :: FORMAT :: 1 :: 2 :: 3 :: 4 :: 5 :: 6 :: []) =
      .error (.checkFailed "test data" DATA [1, 2, 3, 4, 5, 6]) ∧
    read_file (SIGNATURE ++ VERSION :: FORMAT :: (DATA ++ 8 :: [])) =
      .error (.checkFailed "sizeof(int)" [SIZEOF_INT] [8]) ∧
    read_file (SIGNATURE ++ VERSION :: FORMAT :: (DATA ++ SIZEOF_INT :: 8 :: [])) =
      .error (.checkFailed "sizeof(size_t)" [SIZEOF_SIZE] [8]) ∧
    read_file (SIGNATURE ++ VERSION :: FORMAT ::
        (DATA ++ SIZEOF_INT :: SIZEOF_SIZE :: 8 :: [])) =
      .error (.checkFailed "sizeof(Instruction)" [SIZEOF_INSTRUCTION] [8]) ∧
    read_file (SIGNATURE ++ VERSION :: FORMAT ::
        (DATA ++ SIZEOF_INT :: SIZEOF_SIZE :: SIZEOF_INSTRUCTION :: 4 :: [])) =
      .error (.checkFailed "sizeof(Integer)" [SIZEOF_INTEGER] [4]) ∧
    read_file (SIGNATURE ++ VERSION :: FORMAT ::
        (DATA ++ SIZEOF_INT :: SIZEOF_SIZE :: SIZEOF_INSTRUCTION ::
          SIZEOF_INTEGER :: 4 :: [])) =
      .error (.checkFailed "sizeof(Number)" [SIZEOF_NUMBER] [4]) ∧
    read_file (SIGNATURE ++ VERSION :: FORMAT ::
        (DATA ++ SIZEOF_INT :: SIZEOF_SIZE :: SIZEOF_INSTRUCTION ::
          SIZEOF_INTEGER :: SIZEOF_NUMBER ::
          1 :: 0 :: 0 :: 0 :: 0 :: 0 :: 0 :: 0 :: [])) =
      .error (.checkFailed "test integer" (i64le TEST_INT)
        (i64le (toSigned64 (1 + 0 * 256 + 0 * 65536 + 0 * 16777216 +
          0 * 4294967296 + 0 * 1099511627776 + 0 * 281474976710656 +
          0 * 72057594037927936)))) ∧
    read_file (SIGNATURE ++ VERSION :: FORMAT ::
        (DATA ++ SIZEOF_INT :: SIZEOF_SIZE :: SIZEOF_INSTRUCTION ::
          SIZEOF_INTEGER :: SIZEOF_NUMBER ::
          (0x78 :: 0x56 :: 0 :: 0 :: 0 :: 0 :: 0 :: 0 ::
            2 :: 0 :: 0 :: 0 :: 0 :: 0 :: 0 :: 0 :: []))) =
      .error (.checkFailed "test number" (u64le TEST_NUMBER_BITS)
        (u64le (2 + 0 * 256 + 0 * 65536 + 0 * 16777216 + 0 * 4294967296 +
          0 * 1099511627776 + 0 * 281474976710656 + 0 * 72057594037927936))) :=
  ⟨header_rejection.1 0 0 0 0 [] (by decide),
    header_rejection.2.1 0x52 [] (by decide),
    header_rejection.2.2.1 9 [] (by decide),
    header_rejection.2.2.2.1 1 2 3 4 5 6 [] (by decide),
    header_rejection.2.2.2.2.1 8 [] (by decide),
    header_rejection.2.2.2.2.2.1 8 [] (by decide),
    header_rejection.2.2.2.2.2.2.1 8 [] (by decide),
    header_rejection.2.2.2.2.2.2.2.1 4 [] (by decide),
    header_rejection.2.2.2.2.2.2.2.2.1 4 [] (by decide),
    header_rejection.2.2.2.2.2.2.2.2.2.1 1 0 0 0 0 0 0 0 [] (by decide),
    header_rejection.2.2.2.2.2.2.2.2.2.2 2 0 0 0 0 0 0 0 [] (by decide)⟩

/-- Distributing bind over a branch, for normalizing reader runs. -/
theorem ite_bind {ε α β : Type} (c : Prop) [Decidable c] (x y : Except ε α)
    (f : α → Except ε β) :
    ((if c then x else y) >>= f) = if c then x >>= f else y >>= f := by
  split <;> rfl

/-- C8: the read-exactly-N-bytes primitive `read_all` loops until the
buffer is filled or the source fails: it returns `ok` only with exactly
the `n` requested bytes, and a zero-length read (empty chunk) arriving
before the buffer is full yields the unexpected-EOF error, never a short
success. -/
theorem read_all_contract :
    (∀ chunks n bs, read_all chunks n = .ok bs → bs.length = n) ∧
    (∀ pre rest n, (pre.map List.length).sum < n →
      read_all (pre ++ [] :: rest) n = .error .eof) := by
  constructor
  · intro chunks
    induction chunks with
    | nil =>
      intro n bs h
      match n with
      | 0 => simp [read_all] at h; simp [← h]
      | m + 1 => simp [read_all] at h
    | cons c cs ih =>
      intro n bs h
      match n with
      | 0 => simp [read_all] at h; simp [← h]
      | m + 1 =>
        rw [read_all] at h
        by_cases hc : c.length = 0
        · rw [if_pos hc] at h
          exact absurd h (by simp)
        · rw [if_neg hc] at h
          simp only at h
          rcases hrec : read_all cs (m + 1 - (c.take (m + 1)).length) with e | more
          · rw [hrec] at h
            simp at h
          · rw [hrec] at h
            simp only [Except.ok.injEq] at h
            have hlen := ih _ _ hrec
            rw [← h]
            simp only [List.length_append, hlen, List.length_take]
            omega
  · intro pre
    induction pre with
    | nil =>
      intro rest n h
      simp at h
      match n with
      | m + 1 => simp [read_all]
    | cons c pre ih =>
      intro rest n h
      simp only [List.map_cons, List.sum_cons] at h
      match n with
      | m + 1 =>
        rw [List.cons_append, read_all]
        by_cases hc : c.length = 0
        · rw [if_pos hc]
        · rw [if_neg hc]
          simp only
          rw [ih rest (m + 1 - (c.take (m + 1)).length)
            (by simp only [List.length_take]; omega)]

theorem read_all_contract_witness :
    (([1, 2] : List Nat).length = 2) ∧
    read_all [[1], [], [9]] 3 = .error .eof :=
  ⟨read_all_contract.1 [[1, 2]] 2 [1, 2] (by rfl),
    read_all_contract.2 [[1]] [[9]] 3 (by simp)⟩

set_option maxHeartbeats 2000000 in
/-- C10: the reader discards the outer-upvalue-count byte (offset 33,
right after the 33-byte header) without any validation: two input streams
that differ only in that byte give identical `read_file` results, so the
byte is in particular never checked against the decoded root prototype's
upvalue list. -/
theorem upval_count_byte_ignored :
    ∀ (a0 a1 a2 a3 a4 a5 a6 a7 a8 a9 a10 a11 a12 a13 a14 a15 a16 a17 a18 a19
       a20 a21 a22 a23 a24 a25 a26 a27 a28 a29 a30 a31 a32 b bb : Nat)
      (rest : List Nat),
      read_file (a0 :: a1 :: a2 :: a3 :: a4 :: a5 :: a6 :: a7 :: a8 :: a9 ::
        a10 :: a11 :: a12 :: a13 :: a14 :: a15 :: a16 :: a17 :: a18 :: a19 ::
        a20 :: a21 :: a22 :: a23 :: a24 :: a25 :: a26 :: a27 :: a28 :: a29 ::
        a30 :: a31 :: a32 :: b :: rest) =
      read_file (a0 :: a1 :: a2 :: a3 :: a4 :: a5 :: a6 :: a7 :: a8 :: a9 ::
        a10 :: a11 :: a12 :: a13 :: a14 :: a15 :: a16 :: a17 :: a18 :: a19 ::
        a20 :: a21 :: a22 :: a23 :: a24 :: a25 :: a26 :: a27 :: a28 :: a29 ::
        a30 :: a31 :: a32 :: bb :: rest) := by
  intro a0 a1 a2 a3 a4 a5 a6 a7 a8 a9 a10 a11 a12 a13 a14 a15 a16 a17 a18 a19
    a20 a21 a22 a23 a24 a25 a26 a27 a28 a29 a30 a31 a32 b bb rest
  unfold read_file
  simp only [read_header, take_bytes, read_u8, read_u64, read_i64,
    ite_bind, ok_bind, error_bind]

end LuaKit
